import Mathlib

/-!
Shallow embedding of the Agent Registry of the eliza-daemon repository
(src/registry/agent_registry.py) and proofs about its behaviour.

Conventions of the embedding:
* Python strings are Lean `String`; the case-folding, word-splitting and
  substring tests the scoring algorithm performs are written over `List Char`
  (the `data` of a `String`) so that every definition reduces in the kernel.
* The `active_agents` dict is an insertion-ordered association list
  `List (String × AgentPersona)`; `dict_insert` replaces in place on an
  existing key and appends otherwise, and `dict_values` enumerates values in
  insertion order, exactly as Python dict iteration does.
* The supabase client is modelled as a record of tables plus two flags,
  `writeOk` and `readOk`; a `false` flag makes the corresponding call raise,
  which is how a persistence failure is injected.
* Sources of nondeterminism (uuid4, utcnow) are passed in as explicit
  arguments (`fresh_id`, `now`).
* Methods that mutate the registry are state transformers
  `RegistryState → result × RegistryState`; a method whose Python body
  re-raises becomes an `Except String` value, the error case meaning the
  exception propagated before any in-memory mutation happened.
* Python `list.sort(key=..., reverse=True)` is a stable descending sort; it is
  embedded as a stable descending insertion sort.
-/

/-- Lower-case the characters of a string, as Python `str.lower` does for the
ASCII data appearing in the registry. -/
def charsLower (s : String) : List Char := s.data.map Char.toLower

/-- `listStartsWith p l` is true when `p` is an initial segment of `l`. -/
def listStartsWith : List Char → List Char → Bool
  | [], _ => true
  | _ :: _, [] => false
  | a :: as, b :: bs => a == b && listStartsWith as bs

/-- Python `needle in hay` on strings: substring containment. -/
def containsSub (needle : List Char) : List Char → Bool
  | [] => listStartsWith needle []
  | c :: rest => listStartsWith needle (c :: rest) || containsSub needle rest

/-- Python `str.split()` with no separator: split on runs of whitespace,
producing no empty words.  The second argument accumulates the current word
in reverse. -/
def splitWords : List Char → List Char → List (List Char)
  | [], acc => if acc.isEmpty then [] else [acc.reverse]
  | c :: rest, acc =>
      if c.isWhitespace then
        (if acc.isEmpty then [] else [acc.reverse]) ++ splitWords rest []
      else splitWords rest (c :: acc)

/-- Lexicographic order on character lists (Python string `<`). -/
def charsLt : List Char → List Char → Bool
  | [], [] => false
  | [], _ :: _ => true
  | _ :: _, [] => false
  | a :: as, b :: bs => a < b || (a == b && charsLt as bs)

/-- `class AgentRole(Enum)` of the source. -/
inductive AgentRole where
  | executive
  | technical
  | community
  | compliance
  | coordinator
deriving DecidableEq

/-- The `.value` attribute of each `AgentRole` member. -/
def role_value : AgentRole → String
  | AgentRole.executive => "executive"
  | AgentRole.technical => "technical"
  | AgentRole.community => "community"
  | AgentRole.compliance => "compliance"
  | AgentRole.coordinator => "coordinator"

/-- The `AgentRole(x)` enum constructor: `none` models the `ValueError` raised
on an unrecognized value. -/
def role_from_string (x : String) : Option AgentRole :=
  if x == "executive" then some AgentRole.executive
  else if x == "technical" then some AgentRole.technical
  else if x == "community" then some AgentRole.community
  else if x == "compliance" then some AgentRole.compliance
  else if x == "coordinator" then some AgentRole.coordinator
  else none

/-- `class AgentStatus(Enum)` of the source. -/
inductive AgentStatus where
  | active
  | inactive
  | suspended
  | maintenance
deriving DecidableEq

/-- The `.value` attribute of each `AgentStatus` member. -/
def status_value : AgentStatus → String
  | AgentStatus.active => "active"
  | AgentStatus.inactive => "inactive"
  | AgentStatus.suspended => "suspended"
  | AgentStatus.maintenance => "maintenance"

/-- The `AgentPersona` dataclass.  Timestamps are abstract ticks. -/
structure AgentPersona where
  agent_id : String
  name : String
  role : AgentRole
  personality_traits : List (String × Int)
  communication_style : String
  expertise_areas : List String
  authority_level : Int
  social_accounts : List (String × String)
  contact_info : List (String × String)
  created_at : Nat
  updated_at : Nat
  status : AgentStatus
deriving DecidableEq

/-- A `persona_config` dict as passed to `register_agent`.  `Option` fields
model keys that may be absent; `register_agent` applies the same defaults the
Python `dict.get` calls do.  A `none` in `name` models a missing `"name"` key
(a `KeyError` in the source). -/
structure PersonaConfig where
  name : Option String
  role : String
  personality_traits : Option (List (String × Int))
  communication_style : Option String
  expertise_areas : Option (List String)
  authority_level : Option Int
  social_accounts : Option (List (String × String))
  contact_info : Option (List (String × String))
deriving DecidableEq

/-- A task dict: the registry reads `task.get("type", "")` and
`task.get("description", "")`, so a missing key is the empty string. -/
structure TaskInput where
  type : String
  description : String
deriving DecidableEq

/-- A row of the `agent_task_assignments` table. -/
structure TaskAssignment where
  assignment_id : String
  agent_id : String
  task_type : String
  task_description : String
  assigned_at : Nat
  status : String
deriving DecidableEq

/-- A row of the `agent_coordination_sessions` table. -/
structure CoordinationSession where
  coordination_id : String
  type : String
  participants : List String
  started_at : Nat
  status : String
deriving DecidableEq

/-- The supabase store: three tables plus fault-injection flags.  A `false`
`writeOk` makes every insert/update call raise; a `false` `readOk` makes every
select call raise. -/
structure SupabaseDB where
  agent_personas : List AgentPersona
  agent_task_assignments : List TaskAssignment
  agent_coordination_sessions : List CoordinationSession
  writeOk : Bool
  readOk : Bool
deriving DecidableEq

/-- The state of an `AgentRegistry` object: the `active_agents` dict (as an
insertion-ordered association list) together with the backing store. -/
structure RegistryState where
  active_agents : List (String × AgentPersona)
  db : SupabaseDB
deriving DecidableEq

/-- Python dict assignment `d[k] = v`: replace in place if the key exists,
append otherwise. -/
def dict_insert (d : List (String × AgentPersona)) (k : String) (v : AgentPersona) :
    List (String × AgentPersona) :=
  match d with
  | [] => [(k, v)]
  | (k2, v2) :: rest =>
      if k2 == k then (k, v) :: rest else (k2, v2) :: dict_insert rest k v

/-- Python `d.get(k)`. -/
def dict_get (d : List (String × AgentPersona)) (k : String) : Option AgentPersona :=
  match d with
  | [] => none
  | (k2, v) :: rest => if k2 == k then some v else dict_get rest k

/-- Python `d.values()` in insertion order. -/
def dict_values (d : List (String × AgentPersona)) : List AgentPersona :=
  d.map Prod.snd

/-- Role-based scoring block of `_select_best_agent_for_task`: the if/elif
chain awarding 30 points when the lowered task type matches the role. -/
def role_score (task_type : List Char) (role : AgentRole) : Int :=
  if (task_type == "governance".data || task_type == "proposal".data)
      && role == AgentRole.executive then 30
  else if (task_type == "technical".data || task_type == "development".data)
      && role == AgentRole.technical then 30
  else if (task_type == "community".data || task_type == "social".data)
      && role == AgentRole.community then 30
  else if (task_type == "compliance".data || task_type == "legal".data)
      && role == AgentRole.compliance then 30
  else 0

/-- Expertise-matching loop of `_select_best_agent_for_task`: for each
expertise entry, add 10 when any task keyword is a substring of the lowered
entry. -/
def expertise_score (task_keywords : List (List Char)) (areas : List String) : Int :=
  areas.foldl
    (fun acc e =>
      if task_keywords.any (fun kw => containsSub kw (charsLower e)) then acc + 10
      else acc)
    0

/-- `task.get("description", "").lower().split()`. -/
def task_keywords (task : TaskInput) : List (List Char) :=
  splitWords (charsLower task.description) []

/-- The score `_select_best_agent_for_task` computes for one agent. -/
def agent_score (task : TaskInput) (agent : AgentPersona) : Int :=
  role_score (charsLower task.type) agent.role
    + expertise_score (task_keywords task) agent.expertise_areas
    + agent.authority_level

/-- One step of the stable descending insertion sort modelling
`scored_agents.sort(key=lambda x: x[1], reverse=True)`: an element moves past
strictly larger scores only, so original order is kept among equal scores. -/
def insert_desc (x : AgentPersona × Int) :
    List (AgentPersona × Int) → List (AgentPersona × Int)
  | [] => [x]
  | y :: ys => if x.2 < y.2 then y :: insert_desc x ys else x :: y :: ys

/-- Stable descending sort by score. -/
def sort_desc : List (AgentPersona × Int) → List (AgentPersona × Int)
  | [] => []
  | x :: xs => insert_desc x (sort_desc xs)

/-- `_select_best_agent_for_task`: score every available agent, sort stably by
descending score, return the head. -/
def select_best_agent_for_task (task : TaskInput) (available_agents : List AgentPersona) :
    Option AgentPersona :=
  match sort_desc (available_agents.map (fun a => (a, agent_score task a))) with
  | [] => none
  | (a, _) :: _ => some a

/-- `register_agent`.  The error case models the re-raised exception: a
missing name key, an unrecognized role, or a failed `_store_agent_persona`
write; in each of those the method raises before `self.active_agents` is
touched, so the caller keeps the unmodified state. -/
def register_agent (s : RegistryState) (cfg : PersonaConfig) (fresh_id : String)
    (now : Nat) : Except String (String × RegistryState) :=
  match cfg.name with
  | none => Except.error "KeyError: name"
  | some nm =>
    match role_from_string cfg.role with
    | none => Except.error (String.append "ValueError: " cfg.role)
    | some role =>
      let persona : AgentPersona :=
        { agent_id := fresh_id
          name := nm
          role := role
          personality_traits := cfg.personality_traits.getD []
          communication_style := cfg.communication_style.getD "professional"
          expertise_areas := cfg.expertise_areas.getD []
          authority_level := cfg.authority_level.getD 5
          social_accounts := cfg.social_accounts.getD []
          contact_info := cfg.contact_info.getD []
          created_at := now
          updated_at := now
          status := AgentStatus.active }
      if s.db.writeOk then
        Except.ok (fresh_id,
          { s with
            db := { s.db with agent_personas := s.db.agent_personas ++ [persona] }
            active_agents := dict_insert s.active_agents fresh_id persona })
      else
        Except.error "PersistenceError: insert agent_personas"

/-- `get_agent`: pure dict lookup. -/
def get_agent (s : RegistryState) (agent_id : String) : Option AgentPersona :=
  dict_get s.active_agents agent_id

/-- `get_agents_by_role`. -/
def get_agents_by_role (s : RegistryState) (role : AgentRole) : List AgentPersona :=
  (dict_values s.active_agents).filter (fun a => a.role == role)

/-- The `_update_agent_in_db` table update: set `status` and `updated_at` on
every row whose `agent_id` matches. -/
def update_persona_rows (rows : List AgentPersona) (agent_id : String)
    (st : AgentStatus) (now : Nat) : List AgentPersona :=
  rows.map (fun p =>
    if p.agent_id == agent_id then { p with status := st, updated_at := now } else p)

/-- `update_agent_status`: mutate the in-memory persona first, then write
through.  A failed write raises inside the try block, so the method returns
`false` while the in-memory mutation stays. -/
def update_agent_status (s : RegistryState) (agent_id : String) (st : AgentStatus)
    (now : Nat) : Bool × RegistryState :=
  match dict_get s.active_agents agent_id with
  | none => (false, s)
  | some p =>
    let p2 := { p with status := st, updated_at := now }
    let s2 := { s with active_agents := dict_insert s.active_agents agent_id p2 }
    if s2.db.writeOk then
      (true,
        { s2 with
          db := { s2.db with
            agent_personas := update_persona_rows s2.db.agent_personas agent_id st now } })
    else
      (false, s2)

/-- `_record_task_assignment`: best-effort append; a failed insert is caught
and logged inside the helper, so the state is simply unchanged. -/
def record_task_assignment (s : RegistryState) (agent_id : String) (task : TaskInput)
    (fresh_assignment_id : String) (now : Nat) : RegistryState :=
  if s.db.writeOk then
    { s with
      db := { s.db with
        agent_task_assignments := s.db.agent_task_assignments ++
          [{ assignment_id := fresh_assignment_id
             agent_id := agent_id
             task_type := task.type
             task_description := task.description
             assigned_at := now
             status := "assigned" }] } }
  else s

/-- `assign_task_to_agent`. -/
def assign_task_to_agent (s : RegistryState) (task : TaskInput)
    (preferred_role : Option AgentRole) (fresh_assignment_id : String) (now : Nat) :
    Option String × RegistryState :=
  let available := (dict_values s.active_agents).filter
    (fun a => a.status == AgentStatus.active)
  if available.isEmpty then (none, s)
  else
    let available2 :=
      match preferred_role with
      | none => available
      | some r =>
        let role_agents := available.filter (fun a => a.role == r)
        if role_agents.isEmpty then available else role_agents
    match select_best_agent_for_task task available2 with
    | none => (none, s)
    | some best =>
        (some best.agent_id, record_task_assignment s best.agent_id task
          fresh_assignment_id now)

/-- Resolution step of `coordinate_agents`: keep an id only when it is found
and its persona is ACTIVE. -/
def resolve_active (s : RegistryState) (agent_id : String) : Option AgentPersona :=
  match dict_get s.active_agents agent_id with
  | none => none
  | some a => if a.status == AgentStatus.active then some a else none

/-- The `participating_agents` list built by `coordinate_agents`. -/
def participating_agents (s : RegistryState) (participants : List String) :
    List AgentPersona :=
  participants.filterMap (resolve_active s)

/-- One entry of the `"agents"` summary in the coordination result. -/
structure AgentSummary where
  id : String
  name : String
  role : String
deriving DecidableEq

/-- The dict returned by `coordinate_agents`. -/
structure CoordinationResult where
  success : Bool
  message : Option String
  coordination_id : Option String
  participants : Option Nat
  agents : Option (List AgentSummary)
deriving DecidableEq

/-- `coordinate_agents`.  `_store_coordination_session` swallows a failed
insert, so a write failure only leaves the table unchanged. -/
def coordinate_agents (s : RegistryState) (coordination_type : String)
    (participants : List String) (fresh_session_id : String) (now : Nat) :
    CoordinationResult × RegistryState :=
  let pas := participating_agents s participants
  if pas.isEmpty then
    ({ success := false
       message := some "No active agents found for coordination"
       coordination_id := none
       participants := none
       agents := none }, s)
  else
    let session : CoordinationSession :=
      { coordination_id := fresh_session_id
        type := coordination_type
        participants := pas.map (fun a => a.agent_id)
        started_at := now
        status := "active" }
    let s2 :=
      if s.db.writeOk then
        { s with
          db := { s.db with
            agent_coordination_sessions :=
              s.db.agent_coordination_sessions ++ [session] } }
      else s
    ({ success := true
       message := none
       coordination_id := some fresh_session_id
       participants := some pas.length
       agents := some (pas.map (fun a =>
         { id := a.agent_id, name := a.name, role := role_value a.role })) }, s2)

/-- `_load_existing_agents`: read every row and put only the ACTIVE personas
into the working set; any failure is caught and logged, leaving the state as
it was. -/
def load_existing_agents (s : RegistryState) : RegistryState :=
  if s.db.readOk then
    { s with
      active_agents := s.db.agent_personas.foldl
        (fun acc p =>
          if p.status == AgentStatus.active then dict_insert acc p.agent_id p else acc)
        s.active_agents }
  else s

/-- The four `default_agents` configs of `_create_default_agents`. -/
def default_agent_configs : List PersonaConfig :=
  [ { name := some "Alexandra Executive"
      role := "executive"
      personality_traits := some
        [("leadership", 9), ("decisiveness", 8), ("strategic_thinking", 9),
         ("communication", 8)]
      communication_style := some "authoritative_yet_approachable"
      expertise_areas := some ["governance", "strategy", "public_speaking",
        "dao_operations"]
      authority_level := some 9
      social_accounts := some [("twitter", "@AlexXMRTExec"),
        ("discord", "Alexandra#EXEC")]
      contact_info := some [("email", "alexandra.exec@xmrt.dao")] },
    { name := some "Marcus Technical"
      role := "technical"
      personality_traits := some
        [("analytical", 9), ("precision", 9), ("innovation", 8), ("patience", 7)]
      communication_style := some "technical_but_clear"
      expertise_areas := some ["blockchain", "smart_contracts", "mining", "security"]
      authority_level := some 8
      social_accounts := some [("twitter", "@MarcusXMRTTech"),
        ("github", "MarcusXMRTDev")]
      contact_info := some [("email", "marcus.tech@xmrt.dao")] },
    { name := some "Sofia Community"
      role := "community"
      personality_traits := some
        [("empathy", 9), ("enthusiasm", 8), ("patience", 9), ("creativity", 8)]
      communication_style := some "warm_and_engaging"
      expertise_areas := some ["community_building", "social_media", "events",
        "education"]
      authority_level := some 7
      social_accounts := some [("twitter", "@SofiaXMRTComm"),
        ("discord", "Sofia#COMM")]
      contact_info := some [("email", "sofia.community@xmrt.dao")] },
    { name := some "David Compliance"
      role := "compliance"
      personality_traits := some
        [("attention_to_detail", 9), ("cautiousness", 8), ("reliability", 9),
         ("thoroughness", 9)]
      communication_style := some "precise_and_formal"
      expertise_areas := some ["regulatory_compliance", "legal_analysis",
        "risk_assessment"]
      authority_level := some 8
      social_accounts := some [("linkedin", "DavidXMRTCompliance")]
      contact_info := some [("email", "david.compliance@xmrt.dao")] } ]

/-- The registration loop of `_create_default_agents`: register each config in
order; a raised exception aborts the loop (already-registered agents stay) and
is reported as `false` by `initialize_registry`. -/
def register_agents_list (s : RegistryState) (cfgs : List PersonaConfig)
    (fresh_ids : List String) (now : Nat) : Bool × RegistryState :=
  match cfgs, fresh_ids with
  | [], _ => (true, s)
  | _ :: _, [] => (false, s)
  | c :: cs, i :: rest =>
    match register_agent s c i now with
    | Except.error _ => (false, s)
    | Except.ok (_, s2) => register_agents_list s2 cs rest now

/-- `initialize_registry`: load existing agents, bootstrap the default set
when the working set is still empty, return whether everything succeeded. -/
def initialize_registry (s : RegistryState) (fresh_ids : List String) (now : Nat) :
    Bool × RegistryState :=
  let s1 := load_existing_agents s
  if s1.active_agents.isEmpty then
    register_agents_list s1 default_agent_configs fresh_ids now
  else
    (true, s1)

/-- One entry of `recent_activity`. -/
structure ActivityRecord where
  agent_id : String
  activity : String
  timestamp : Nat
deriving DecidableEq

/-- Stable descending insertion by `assigned_at`, modelling the
`order("assigned_at", desc=True)` of the recent-activity query. -/
def insert_desc_assignment (x : TaskAssignment) :
    List TaskAssignment → List TaskAssignment
  | [] => [x]
  | y :: ys =>
      if x.assigned_at < y.assigned_at then y :: insert_desc_assignment x ys
      else x :: y :: ys

/-- Stable descending sort of the assignment log by `assigned_at`. -/
def sort_assignments_desc : List TaskAssignment → List TaskAssignment
  | [] => []
  | x :: xs => insert_desc_assignment x (sort_assignments_desc xs)

/-- `_get_recent_activity`: newest-first query limited to 10 rows, mapped to
activity entries; any failure yields the empty list. -/
def get_recent_activity (db : SupabaseDB) : List ActivityRecord :=
  if db.readOk then
    ((sort_assignments_desc db.agent_task_assignments).take 10).map
      (fun item =>
        { agent_id := item.agent_id
          activity := String.append "Assigned task: " item.task_type
          timestamp := item.assigned_at })
  else []

/-- `stats["agents_by_role"].get(role, 0) + 1` on an insertion-ordered dict. -/
def bump_role_count (counts : List (String × Nat)) (k : String) :
    List (String × Nat) :=
  match counts with
  | [] => [(k, 1)]
  | (k2, n) :: rest =>
      if k2 == k then (k2, n + 1) :: rest else (k2, n) :: bump_role_count rest k

/-- The dict returned by `get_registry_stats`. -/
structure RegistryStats where
  total_agents : Nat
  active_agents : Nat
  agents_by_role : List (String × Nat)
  recent_activity : List ActivityRecord
deriving DecidableEq

/-- `get_registry_stats`: a read-only summary of the working set plus the
recent-activity query. -/
def get_registry_stats (s : RegistryState) : RegistryStats :=
  { total_agents := (dict_values s.active_agents).length
    active_agents := ((dict_values s.active_agents).filter
      (fun a => a.status == AgentStatus.active)).length
    agents_by_role := (dict_values s.active_agents).foldl
      (fun acc a => bump_role_count acc (role_value a.role)) []
    recent_activity := get_recent_activity s.db }

/-- `get_registry_stats` in the state-transformer convention of the other
methods: its Python body performs no mutation, so the state passes through. -/
def get_registry_stats_op (s : RegistryState) : RegistryStats × RegistryState :=
  (get_registry_stats s, s)

/-! ### Test fixtures and specification-side definitions -/

/-- Build a persona with the fields the claims exercise; the remaining fields
take the registration defaults. -/
def mk_persona (id nm : String) (role : AgentRole) (areas : List String)
    (auth : Int) (st : AgentStatus) : AgentPersona :=
  { agent_id := id
    name := nm
    role := role
    personality_traits := []
    communication_style := "professional"
    expertise_areas := areas
    authority_level := auth
    social_accounts := []
    contact_info := []
    created_at := 0
    updated_at := 0
    status := st }

/-- A healthy empty store. -/
def emptyDB : SupabaseDB :=
  { agent_personas := []
    agent_task_assignments := []
    agent_coordination_sessions := []
    writeOk := true
    readOk := true }

/-- A store whose writes fail. -/
def badWriteDB : SupabaseDB := { emptyDB with writeOk := false }

def agent_A : AgentPersona :=
  mk_persona "agent-a" "A" AgentRole.technical ["blockchain"] 8 AgentStatus.active

def agent_B : AgentPersona :=
  mk_persona "agent-b" "B" AgentRole.community [] 9 AgentStatus.active

def task_C1 : TaskInput := { type := "technical", description := "blockchain audit" }

def state_C1 : RegistryState :=
  { active_agents := [("agent-a", agent_A), ("agent-b", agent_B)], db := emptyDB }

/-- Two agents with identical role, expertise and authority, hence equal
scores; `agent_X` has the lexicographically larger id. -/
def agent_X : AgentPersona :=
  mk_persona "b" "X" AgentRole.technical [] 5 AgentStatus.active

def agent_Y : AgentPersona :=
  mk_persona "a" "Y" AgentRole.technical [] 5 AgentStatus.active

def task_tech : TaskInput := { type := "technical", description := "" }

def fresh_ids4 : List String := ["id-1", "id-2", "id-3", "id-4"]

/-- The empty initial registry state (fresh constructor, healthy store). -/
def state_empty : RegistryState := { active_agents := [], db := emptyDB }

def state_badwrite : RegistryState :=
  { active_agents := [("agent-a", agent_A), ("agent-b", agent_B)], db := badWriteDB }

/-- A config with an empty (but present) name and a valid role. -/
def cfg_empty_name : PersonaConfig :=
  { name := some ""
    role := "technical"
    personality_traits := none
    communication_style := none
    expertise_areas := none
    authority_level := none
    social_accounts := none
    contact_info := none }

/-- A config with an out-of-range authority level. -/
def cfg_auth42 : PersonaConfig := { cfg_empty_name with name := some "Rogue", authority_level := some 42 }

/-- An ordinary valid config. -/
def cfg_valid : PersonaConfig := { cfg_empty_name with name := some "N" }

/-- A config whose role string is not a recognized enum value. -/
def cfg_bad_role : PersonaConfig := { cfg_valid with role := "intern" }

def agent_susp : AgentPersona :=
  mk_persona "agent-s" "S" AgentRole.community [] 5 AgentStatus.suspended

def state_C5 : RegistryState :=
  { active_agents := [("agent-a", agent_A), ("agent-s", agent_susp)], db := emptyDB }

/-- Spec wording of the role mapping of claim C1: the task type matches the
persona role under the fixed mapping governance/proposal to EXECUTIVE,
technical/development to TECHNICAL, community/social to COMMUNITY,
compliance/legal to COMPLIANCE. -/
def role_matches_mapping (task_type : List Char) (role : AgentRole) : Bool :=
  ((task_type == "governance".data || task_type == "proposal".data)
      && role == AgentRole.executive)
  || ((task_type == "technical".data || task_type == "development".data)
      && role == AgentRole.technical)
  || ((task_type == "community".data || task_type == "social".data)
      && role == AgentRole.community)
  || ((task_type == "compliance".data || task_type == "legal".data)
      && role == AgentRole.compliance)

/-- The score exactly as the spec sentence of claim C1 words it: +30 on a role
mapping match, plus 10 for each expertise entry containing (case-insensitive,
as a substring) at least one whitespace-separated keyword of the description,
plus the authority level. -/
def spec_agent_score (task : TaskInput) (agent : AgentPersona) : Int :=
  (if role_matches_mapping (charsLower task.type) agent.role then 30 else 0)
    + 10 * (agent.expertise_areas.countP
        (fun e => (task_keywords task).any (fun kw => containsSub kw (charsLower e))) : Int)
    + agent.authority_level

/-- Spec wording of the tie-break-free selection the code actually performs:
the first element of the list attaining the maximal score. -/
def first_argmax (f : AgentPersona → Int) : List AgentPersona → Option AgentPersona
  | [] => none
  | a :: rest =>
    match first_argmax f rest with
    | none => some a
    | some b => if f a < f b then some b else some a

/-- A store holding one ACTIVE and one SUSPENDED persona row, with an empty
working set: the load scenario for initialize. -/
def state_mixed : RegistryState :=
  { active_agents := []
    db := { emptyDB with agent_personas := [agent_A, agent_susp] } }

/-- The registry state produced by registering the out-of-range-authority
config on the empty registry. -/
def state_auth42 : RegistryState :=
  match register_agent state_empty cfg_auth42 "fresh-1" 0 with
  | Except.ok (_, s) => s
  | Except.error _ => state_empty

/-- First-match lookup in an agents_by_role association list, defaulting to
zero for an absent role key. -/
def assoc_count (counts : List (String × Nat)) (k : String) : Nat :=
  match counts with
  | [] => 0
  | (k2, n) :: rest => if k2 == k then n else assoc_count rest k

/-- A registry over a store whose reads fail. -/
def state_badread : RegistryState :=
  { active_agents := [("agent-a", agent_A)]
    db := { emptyDB with readOk := false } }

/-! ### Helper lemmas -/

theorem ite_chain_or (a b c d : Bool) (x : Int) :
    (if a then x else if b then x else if c then x else if d then x else 0)
      = if a || b || c || d then x else 0 := by
  cases a <;> cases b <;> cases c <;> cases d <;> simp

theorem role_score_eq_mapping (tt : List Char) (r : AgentRole) :
    role_score tt r = if role_matches_mapping tt r then 30 else 0 := by
  unfold role_score role_matches_mapping
  exact ite_chain_or _ _ _ _ 30

theorem foldl_if_add_ten (p : String → Bool) (l : List String) (acc : Int) :
    l.foldl (fun a e => if p e then a + 10 else a) acc
      = acc + 10 * (l.countP p : Int) := by
  induction l generalizing acc with
  | nil => simp
  | cons x xs ih =>
      cases hp : p x
      · simp [List.countP_cons, hp, ih]
      · simp [List.countP_cons, hp, ih]
        ring

theorem expertise_score_eq_countP (kws : List (List Char)) (areas : List String) :
    expertise_score kws areas
      = 10 * (areas.countP
          (fun e => kws.any (fun kw => containsSub kw (charsLower e))) : Int) := by
  unfold expertise_score
  simpa using foldl_if_add_ten
    (fun e => kws.any (fun kw => containsSub kw (charsLower e))) areas 0

theorem agent_score_eq_spec (task : TaskInput) (agent : AgentPersona) :
    agent_score task agent = spec_agent_score task agent := by
  unfold agent_score spec_agent_score
  rw [role_score_eq_mapping, expertise_score_eq_countP]

/-! ### Claim C1 -/

/-- C1: the Task Assignment Engine scores every candidate exactly as the spec
states — +30 on a role-mapping match, +10 per expertise entry containing a
task keyword, plus the authority level — and on the concrete scenario agent A
scores 48, agent B scores 9, and the task is assigned to agent A. -/
theorem C1_scoring_formula_and_scenario :
    (∀ (task : TaskInput) (agent : AgentPersona),
        agent_score task agent = spec_agent_score task agent)
    ∧ agent_score task_C1 agent_A = 48
    ∧ agent_score task_C1 agent_B = 9
    ∧ (assign_task_to_agent state_C1 task_C1 none "assignment-1" 1).1
        = some "agent-a" :=
  ⟨agent_score_eq_spec, by decide, by decide, by decide⟩

theorem head_insert_desc_cons (x y : AgentPersona × Int) (ys : List (AgentPersona × Int)) :
    (insert_desc x (y :: ys)).head? = some (if x.2 < y.2 then y else x) := by
  by_cases h : x.2 < y.2
  · simp [insert_desc, h]
  · simp [insert_desc, h]

theorem sort_head_eq_first_argmax (f : AgentPersona → Int) :
    ∀ l : List AgentPersona,
      (sort_desc (l.map (fun a => (a, f a)))).head?
        = (first_argmax f l).map (fun b => (b, f b))
  | [] => rfl
  | a :: l => by
      have ih := sort_head_eq_first_argmax f l
      simp only [List.map_cons, sort_desc, first_argmax]
      cases hs : sort_desc (l.map (fun a => (a, f a))) with
      | nil =>
          rw [hs] at ih
          have h0 : first_argmax f l = none := by
            cases hfa : first_argmax f l with
            | none => rfl
            | some b => rw [hfa] at ih; simp at ih
          rw [h0]
          simp [insert_desc]
      | cons y ys =>
          rw [hs] at ih
          cases hfa : first_argmax f l with
          | none => rw [hfa] at ih; simp at ih
          | some b =>
              rw [hfa] at ih
              have hy : y = (b, f b) := by simpa using ih
              subst hy
              rw [head_insert_desc_cons]
              by_cases h : f a < f b
              · simp [h]
              · simp [h]

/-! ### Claim C2 -/

/-- C2 counterexample: two candidates with equal (maximal) scores and equal
authority, where the id "a" is lexicographically smaller than "b"; the engine
nevertheless returns whichever candidate is enumerated first, so it does not
break the tie by smallest id and its result depends on the enumeration
order. -/
theorem C2_counterexample_order_dependent_tie :
    agent_score task_tech agent_X = agent_score task_tech agent_Y
    ∧ agent_X.authority_level = agent_Y.authority_level
    ∧ agent_Y.agent_id = "a"
    ∧ agent_X.agent_id = "b"
    ∧ charsLt "a".data "b".data = true
    ∧ select_best_agent_for_task task_tech [agent_X, agent_Y] = some agent_X
    ∧ select_best_agent_for_task task_tech [agent_Y, agent_X] = some agent_Y :=
  ⟨by decide, by decide, rfl, rfl, by decide, by decide, by decide⟩

/-- C2 amended: the engine selects the first candidate, in the enumeration
order of the candidate list, that attains the maximal score (the stable
descending sort keeps the original order among equal scores), so the selection
is a deterministic function of the ordered candidate list but ties are broken
by list position, not by authority or id. -/
theorem C2_amended_first_maximal_in_order (task : TaskInput) (l : List AgentPersona) :
    select_best_agent_for_task task l = first_argmax (agent_score task) l := by
  unfold select_best_agent_for_task
  have h := sort_head_eq_first_argmax (agent_score task) l
  cases hs : sort_desc (l.map (fun a => (a, agent_score task a))) with
  | nil =>
      rw [hs] at h
      have h0 : first_argmax (agent_score task) l = none := by
        cases hfa : first_argmax (agent_score task) l with
        | none => rfl
        | some b => rw [hfa] at h; simp at h
      rw [h0]
  | cons y ys =>
      rw [hs] at h
      cases hfa : first_argmax (agent_score task) l with
      | none => rw [hfa] at h; simp at h
      | some b =>
          rw [hfa] at h
          have hy : y = (b, agent_score task b) := by simpa using h
          subst hy
          rfl

/-! ### Claim C3 -/

/-- C3 counterexample: a config whose name is present but empty and whose role
is recognized is not rejected — registration succeeds — so the empty-name
validation the claim states does not happen. -/
theorem C3_counterexample_empty_name_accepted :
    cfg_empty_name.name = some ""
    ∧ (register_agent state_empty cfg_empty_name "fresh-1" 0).isOk = true :=
  ⟨rfl, by decide⟩

/-- C3 amended: registration fails whenever the role is not a recognized value
or the name key is missing entirely; with a recognized role and a present name
— including the empty string — validation passes and, with a healthy store,
registration returns the fresh id. -/
theorem C3_amended_validation (s : RegistryState) (cfg : PersonaConfig)
    (fresh_id : String) (now : Nat) :
    (role_from_string cfg.role = none ∨ cfg.name = none →
      (register_agent s cfg fresh_id now).isOk = false)
    ∧ (∀ nm r, cfg.name = some nm → role_from_string cfg.role = some r →
        s.db.writeOk = true →
        (register_agent s cfg fresh_id now).map Prod.fst = Except.ok fresh_id) := by
  constructor
  · intro h
    cases hn : cfg.name with
    | none => simp [register_agent, hn, Except.isOk, Except.toBool]
    | some nm =>
        cases hr : role_from_string cfg.role with
        | none => simp [register_agent, hn, hr, Except.isOk, Except.toBool]
        | some r =>
            rcases h with h | h
            · rw [hr] at h; exact absurd h (by simp)
            · rw [hn] at h; exact absurd h (by simp)
  · intro nm r hn hr hw
    simp [register_agent, hn, hr, hw, Except.map]

/-- C3 witness: the amended theorem applied to a config with an unknown role
(rejected) and to a valid config (accepted). -/
theorem C3_amended_validation_witness :
    ((register_agent state_empty cfg_bad_role "fresh-1" 0).isOk = false)
    ∧ (register_agent state_empty cfg_valid "fresh-1" 0).map Prod.fst
        = Except.ok "fresh-1" :=
  ⟨(C3_amended_validation state_empty cfg_bad_role "fresh-1" 0).1 (Or.inl (by decide)),
   (C3_amended_validation state_empty cfg_valid "fresh-1" 0).2 "N" AgentRole.technical
     rfl (by decide) rfl⟩

/-! ### Claim C4 -/

/-- C4 counterexample: with a store whose writes fail, register_agent does not
report success from in-memory state — it propagates the failure, returning no
id — and update_agent_status returns false instead of true. -/
theorem C4_counterexample_write_failure_not_success :
    state_badwrite.db.writeOk = false
    ∧ (register_agent state_badwrite cfg_valid "fresh-1" 7).isOk = false
    ∧ (update_agent_status state_badwrite "agent-a" AgentStatus.suspended 7).1
        = false :=
  ⟨rfl, by decide, by decide⟩

theorem assign_fst_depends_only_on_agents (s1 s2 : RegistryState)
    (hag : s1.active_agents = s2.active_agents) (task : TaskInput)
    (pr : Option AgentRole) (aid : String) (now : Nat) :
    (assign_task_to_agent s1 task pr aid now).1
      = (assign_task_to_agent s2 task pr aid now).1 := by
  simp only [assign_task_to_agent, hag]
  split
  · rfl
  · split <;> rfl

/-- C4 amended: when the adapter rejects writes, only the task-assignment
append is fire-and-forget — assign_task_to_agent still returns the chosen id
and leaves the state untouched; update_agent_status keeps the in-memory
mutation but returns false; register_agent propagates the persistence error
without applying any in-memory mutation and returns no id. -/
theorem C4_amended_write_behind (s : RegistryState) (h : s.db.writeOk = false) :
    (∀ (task : TaskInput) (pr : Option AgentRole) (aid : String) (now : Nat),
        (assign_task_to_agent s task pr aid now).2 = s
        ∧ (assign_task_to_agent s task pr aid now).1
            = (assign_task_to_agent
                { s with db := { s.db with writeOk := true } } task pr aid now).1)
    ∧ (∀ (agent_id : String) (st : AgentStatus) (now : Nat) (p : AgentPersona),
        dict_get s.active_agents agent_id = some p →
        update_agent_status s agent_id st now
          = (false, { s with active_agents := (dict_insert s.active_agents agent_id
              { p with status := st, updated_at := now }) }))
    ∧ (∀ (cfg : PersonaConfig) (nm : String) (r : AgentRole)
        (fresh_id : String) (now : Nat),
        cfg.name = some nm → role_from_string cfg.role = some r →
        register_agent s cfg fresh_id now
          = Except.error "PersistenceError: insert agent_personas") := by
  refine ⟨fun task pr aid now => ⟨?_, ?_⟩, fun agent_id st now p hget => ?_, ?_⟩
  · simp only [assign_task_to_agent]
    repeat' split
    all_goals simp [record_task_assignment, h]
  · exact assign_fst_depends_only_on_agents s
      { s with db := { s.db with writeOk := true } } rfl task pr aid now
  · simp [update_agent_status, hget, h]
  · intro cfg nm r fresh_id now hn hr
    simp [register_agent, hn, hr, h]

/-- C4 witness: the amended theorem applied to a concrete registry over a
store that rejects writes. -/
theorem C4_amended_write_behind_witness :
    ((assign_task_to_agent state_badwrite task_C1 none "as-1" 1).2 = state_badwrite
      ∧ (assign_task_to_agent state_badwrite task_C1 none "as-1" 1).1
          = (assign_task_to_agent
              { state_badwrite with db := { state_badwrite.db with writeOk := true } }
              task_C1 none "as-1" 1).1)
    ∧ update_agent_status state_badwrite "agent-a" AgentStatus.suspended 7
        = (false, { state_badwrite with active_agents :=
            (dict_insert state_badwrite.active_agents "agent-a"
              { agent_A with status := AgentStatus.suspended, updated_at := 7 }) })
    ∧ register_agent state_badwrite cfg_valid "fresh-1" 0
        = Except.error "PersistenceError: insert agent_personas" :=
  ⟨(C4_amended_write_behind state_badwrite rfl).1 task_C1 none "as-1" 1,
   (C4_amended_write_behind state_badwrite rfl).2.1 "agent-a" AgentStatus.suspended 7
     agent_A (by decide),
   (C4_amended_write_behind state_badwrite rfl).2.2 cfg_valid "N" AgentRole.technical
     "fresh-1" 0 rfl (by decide)⟩

/-! ### Claim C5 -/

/-- C5: coordinate_agents keeps only participant ids that are found and
ACTIVE; an empty kept list yields success=false with a descriptive message and
no session; a non-empty kept list yields success=true, a fresh session id, the
accepted-participant count and an id/name/role summary per participant.  On
the concrete scenarios: one active plus one suspended id gives success with
participants = 1 containing only the active agent; a lone suspended id gives
success=false with the state unchanged. -/
theorem C5_coordinate_agents_contract :
    (∀ (s : RegistryState) (agent_id : String) (a : AgentPersona),
        resolve_active s agent_id = some a →
        dict_get s.active_agents agent_id = some a ∧ a.status = AgentStatus.active)
    ∧ (∀ (s : RegistryState) (ctype : String) (ps : List String) (sid : String)
        (now : Nat),
        (participating_agents s ps = [] →
          coordinate_agents s ctype ps sid now
            = ({ success := false
                 message := some "No active agents found for coordination"
                 coordination_id := none
                 participants := none
                 agents := none }, s))
        ∧ (participating_agents s ps ≠ [] →
            (coordinate_agents s ctype ps sid now).1
              = { success := true
                  message := none
                  coordination_id := some sid
                  participants := some (participating_agents s ps).length
                  agents := some ((participating_agents s ps).map (fun a =>
                    { id := a.agent_id, name := a.name, role := role_value a.role })) }))
    ∧ (coordinate_agents state_C5 "vote" ["agent-a", "agent-s"] "sess-1" 2).1
        = { success := true
            message := none
            coordination_id := some "sess-1"
            participants := some 1
            agents := some [{ id := "agent-a", name := "A", role := "technical" }] }
    ∧ (coordinate_agents state_C5 "vote" ["agent-s"] "sess-1" 2)
        = ({ success := false
             message := some "No active agents found for coordination"
             coordination_id := none
             participants := none
             agents := none }, state_C5) := by
  refine ⟨?_, ?_, by decide, by decide⟩
  · intro s agent_id a hres
    cases hget : dict_get s.active_agents agent_id with
    | none => simp [resolve_active, hget] at hres
    | some b =>
        simp only [resolve_active, hget] at hres
        by_cases hst : b.status = AgentStatus.active
        · simp only [hst, beq_self_eq_true, if_true, Option.some.injEq] at hres
          subst hres
          exact ⟨rfl, hst⟩
        · rw [if_neg (by simpa using hst)] at hres
          exact absurd hres (by simp)
  · intro s ctype ps sid now
    constructor
    · intro h
      simp [coordinate_agents, h]
    · intro h
      cases hpl : participating_agents s ps with
      | nil => exact absurd hpl h
      | cons a l => simp [coordinate_agents, hpl]

/-- C5 witness: the contract applied to the concrete two-agent registry — the
active id resolves, the lone-suspended call fails without a session, and the
lone-active call succeeds. -/
theorem C5_coordinate_agents_contract_witness :
    (dict_get state_C5.active_agents "agent-a" = some agent_A
      ∧ agent_A.status = AgentStatus.active)
    ∧ coordinate_agents state_C5 "x" ["agent-s"] "sid" 0
        = ({ success := false
             message := some "No active agents found for coordination"
             coordination_id := none
             participants := none
             agents := none }, state_C5)
    ∧ (coordinate_agents state_C5 "x" ["agent-a"] "sid" 0).1
        = { success := true
            message := none
            coordination_id := some "sid"
            participants := some (participating_agents state_C5 ["agent-a"]).length
            agents := some ((participating_agents state_C5 ["agent-a"]).map (fun a =>
              { id := a.agent_id, name := a.name, role := role_value a.role })) } :=
  ⟨C5_coordinate_agents_contract.1 state_C5 "agent-a" agent_A (by decide),
   (C5_coordinate_agents_contract.2.1 state_C5 "x" ["agent-s"] "sid" 0).1 (by decide),
   (C5_coordinate_agents_contract.2.1 state_C5 "x" ["agent-a"] "sid" 0).2 (by decide)⟩

/-! ### Claim C10 -/

theorem filterMap_replicate (k : Nat) (f : String → Option AgentPersona)
    (x : String) (a : AgentPersona) (hf : f x = some a) :
    List.filterMap f (List.replicate k x) = List.replicate k a := by
  induction k with
  | zero => rfl
  | succ n ih => simp [List.replicate_succ, List.filterMap_cons, hf, ih]

/-- C10: coordinate_agents does not deduplicate participant ids — a list
repeating one ACTIVE agent id k times is kept k times, the reported count is
k, and the summary lists that agent k times, so the count can exceed the
number of distinct participants. -/
theorem C10_no_deduplication (s : RegistryState) (ctype sid : String) (now : Nat)
    (id : String) (a : AgentPersona) (k : Nat)
    (hget : dict_get s.active_agents id = some a)
    (hact : a.status = AgentStatus.active) (hk : 0 < k) :
    (coordinate_agents s ctype (List.replicate k id) sid now).1.success = true
    ∧ (coordinate_agents s ctype (List.replicate k id) sid now).1.participants
        = some k
    ∧ (coordinate_agents s ctype (List.replicate k id) sid now).1.agents
        = some (List.replicate k
            { id := a.agent_id, name := a.name, role := role_value a.role }) := by
  have hres : resolve_active s id = some a := by
    simp [resolve_active, hget, hact]
  have hpas : participating_agents s (List.replicate k id) = List.replicate k a :=
    filterMap_replicate k _ id a hres
  cases k with
  | zero => exact absurd hk (by decide)
  | succ n =>
      have hne : participating_agents s (List.replicate (n + 1) id)
          = a :: List.replicate n a := by
        rw [hpas, List.replicate_succ]
      refine ⟨?_, ?_, ?_⟩ <;>
      · simp only [coordinate_agents]
        rw [hne]
        simp [List.replicate_succ]

/-- C10 witness: three copies of the single active id give a participant count
of 3 and a summary repeating that agent three times. -/
theorem C10_no_deduplication_witness :
    (0 : Nat) < 3
    ∧ ((coordinate_agents state_C5 "x" (List.replicate 3 "agent-a") "sid" 0).1.success
          = true
        ∧ (coordinate_agents state_C5 "x" (List.replicate 3 "agent-a") "sid" 0).1.participants
          = some 3
        ∧ (coordinate_agents state_C5 "x" (List.replicate 3 "agent-a") "sid" 0).1.agents
          = some (List.replicate 3
              { id := "agent-a", name := "A", role := "technical" })) :=
  ⟨by decide,
   by
    have h := C10_no_deduplication state_C5 "x" "sid" 0 "agent-a" agent_A 3
      (by decide) (by decide) (by decide)
    simpa using h⟩

/-! ### Claim C6 -/

theorem mem_dict_insert (d : List (String × AgentPersona)) (k : String)
    (v : AgentPersona) (kv : String × AgentPersona) :
    kv ∈ dict_insert d k v → kv = (k, v) ∨ kv ∈ d := by
  induction d with
  | nil => intro h; simpa [dict_insert] using h
  | cons hd tl ih =>
      obtain ⟨k2, v2⟩ := hd
      intro h
      by_cases he : (k2 == k) = true
      · rw [dict_insert, if_pos he] at h
        rcases List.mem_cons.mp h with h | h
        · exact Or.inl h
        · exact Or.inr (List.mem_cons_of_mem _ h)
      · rw [dict_insert, if_neg he] at h
        rcases List.mem_cons.mp h with h | h
        · exact Or.inr (by simp [h])
        · rcases ih h with h2 | h2
          · exact Or.inl h2
          · exact Or.inr (List.mem_cons_of_mem _ h2)

theorem fold_load_only_active (rows : List AgentPersona)
    (acc : List (String × AgentPersona))
    (hacc : ∀ kv ∈ acc, kv.2.status = AgentStatus.active) :
    ∀ kv ∈ rows.foldl
        (fun acc p =>
          if p.status == AgentStatus.active then dict_insert acc p.agent_id p else acc)
        acc,
      kv.2.status = AgentStatus.active := by
  induction rows generalizing acc with
  | nil => simpa using hacc
  | cons p tl ih =>
      intro kv hkv
      rw [List.foldl_cons] at hkv
      by_cases hp : p.status = AgentStatus.active
      · refine ih _ ?_ kv hkv
        intro kv2 hkv2
        rw [if_pos (by simpa using hp)] at hkv2
        rcases mem_dict_insert _ _ _ _ hkv2 with h | h
        · rw [h]; exact hp
        · exact hacc kv2 h
      · refine ih _ ?_ kv hkv
        intro kv2 hkv2
        rw [if_neg (by simpa using hp)] at hkv2
        exact hacc kv2 hkv2

theorem load_existing_agents_db (s : RegistryState) :
    (load_existing_agents s).db = s.db := by
  unfold load_existing_agents
  split <;> rfl

/-- C6 counterexample: after initialize() on an empty store the four default
personas have authority levels 9, 8, 7, 8 — the community persona has
authority 7, which is not in [8,9] as the claim states. -/
theorem C6_counterexample_community_authority_seven :
    ((dict_values (initialize_registry state_empty fresh_ids4 0).2.active_agents).map
        (fun a => (role_value a.role, a.authority_level)))
      = [("executive", 9), ("technical", 8), ("community", 7), ("compliance", 8)]
    ∧ ¬((8 : Int) ≤ 7) :=
  ⟨by decide, by decide⟩

/-- C6 amended: initialize() places only ACTIVE personas from the adapter into
the working set; if the load yields an empty working set it registers exactly
four default personas, one per role EXECUTIVE/TECHNICAL/COMMUNITY/COMPLIANCE,
with authority levels in [7,9] (9, 8, 7, 8 respectively); and it returns true
unless registration of the bootstrap set itself fails. -/
theorem C6_amended_initialize_behavior :
    (∀ (s : RegistryState), s.active_agents = [] →
        ∀ kv ∈ (load_existing_agents s).active_agents,
          kv.2.status = AgentStatus.active)
    ∧ (load_existing_agents state_mixed).active_agents = [("agent-a", agent_A)]
    ∧ (∀ (s : RegistryState) (ids : List String) (now : Nat),
        (load_existing_agents s).active_agents ≠ [] →
        initialize_registry s ids now = (true, load_existing_agents s))
    ∧ (∀ (s : RegistryState) (i1 i2 i3 i4 : String) (now : Nat),
        (load_existing_agents s).active_agents = [] →
        s.db.writeOk = true →
        i1 ≠ i2 → i1 ≠ i3 → i1 ≠ i4 → i2 ≠ i3 → i2 ≠ i4 → i3 ≠ i4 →
        (initialize_registry s [i1, i2, i3, i4] now).1 = true
        ∧ ((dict_values
              (initialize_registry s [i1, i2, i3, i4] now).2.active_agents).map
            (fun a => (role_value a.role, a.authority_level)))
          = [("executive", 9), ("technical", 8), ("community", 7),
             ("compliance", 8)])
    ∧ (∀ (s : RegistryState) (ids : List String) (now : Nat),
        (load_existing_agents s).active_agents = [] →
        s.db.writeOk = false →
        (initialize_registry s ids now).1 = false) := by
  refine ⟨?_, by decide, ?_, ?_, ?_⟩
  · intro s hs
    unfold load_existing_agents
    split
    · exact fold_load_only_active s.db.agent_personas s.active_agents
        (by rw [hs]; intro kv h; exact absurd h (List.not_mem_nil kv))
    · rw [hs]; intro kv h; exact absurd h (List.not_mem_nil kv)
  · intro s ids now h
    unfold initialize_registry
    rw [if_neg (by simpa using h)]
  · intro s i1 i2 i3 i4 now hload hw h12 h13 h14 h23 h24 h34
    have hdb : (load_existing_agents s).db = s.db := load_existing_agents_db s
    have hr1 : role_from_string "executive" = some AgentRole.executive := by decide
    have hr2 : role_from_string "technical" = some AgentRole.technical := by decide
    have hr3 : role_from_string "community" = some AgentRole.community := by decide
    have hr4 : role_from_string "compliance" = some AgentRole.compliance := by decide
    have e12 : (i1 == i2) = false := beq_eq_false_iff_ne.mpr h12
    have e13 : (i1 == i3) = false := beq_eq_false_iff_ne.mpr h13
    have e14 : (i1 == i4) = false := beq_eq_false_iff_ne.mpr h14
    have e23 : (i2 == i3) = false := beq_eq_false_iff_ne.mpr h23
    have e24 : (i2 == i4) = false := beq_eq_false_iff_ne.mpr h24
    have e34 : (i3 == i4) = false := beq_eq_false_iff_ne.mpr h34
    constructor <;>
    · simp only [initialize_registry, hload, List.isEmpty_nil, if_true,
        default_agent_configs, register_agents_list, register_agent,
        hr1, hr2, hr3, hr4, hdb, hw, hload, dict_insert, e12, e13, e14, e23, e24,
        e34, Bool.false_eq_true, if_false, Option.getD_some, Option.getD_none,
        dict_values, List.map_cons, List.map_nil, role_value]
  · intro s ids now hload hw
    have hdb : (load_existing_agents s).db = s.db := load_existing_agents_db s
    cases ids with
    | nil =>
        simp only [initialize_registry, hload, List.isEmpty_nil, if_true,
          default_agent_configs, register_agents_list]
    | cons i rest =>
        have hr1 : role_from_string "executive" = some AgentRole.executive := by
          decide
        simp only [initialize_registry, hload, List.isEmpty_nil, if_true,
          default_agent_configs, register_agents_list, register_agent, hr1,
          hdb, hw, Bool.false_eq_true, if_false]

/-- C6 witness: the amended theorem applied to the empty registry with four
distinct fresh ids, to the mixed-status store (which loads a non-empty working
set), and to an empty store whose writes fail. -/
theorem C6_amended_initialize_behavior_witness :
    ((initialize_registry state_empty ["id-1", "id-2", "id-3", "id-4"] 0).1 = true
      ∧ ((dict_values
            (initialize_registry state_empty ["id-1", "id-2", "id-3", "id-4"] 0).2.active_agents).map
          (fun a => (role_value a.role, a.authority_level)))
        = [("executive", 9), ("technical", 8), ("community", 7), ("compliance", 8)])
    ∧ initialize_registry state_mixed ["id-1"] 0
        = (true, load_existing_agents state_mixed)
    ∧ (initialize_registry { state_empty with db := badWriteDB } ["id-1"] 0).1
        = false :=
  ⟨C6_amended_initialize_behavior.2.2.2.1 state_empty "id-1" "id-2" "id-3" "id-4" 0
      (by decide) rfl (by decide) (by decide) (by decide) (by decide) (by decide)
      (by decide),
   C6_amended_initialize_behavior.2.2.1 state_mixed ["id-1"] 0 (by decide),
   C6_amended_initialize_behavior.2.2.2.2 { state_empty with db := badWriteDB } ["id-1"] 0
      (by decide) rfl⟩

/-! ### Claim C7 -/

theorem dict_get_insert_self (d : List (String × AgentPersona)) (k : String)
    (v : AgentPersona) : dict_get (dict_insert d k v) k = some v := by
  induction d with
  | nil => simp [dict_insert, dict_get]
  | cons hd tl ih =>
      obtain ⟨k2, v2⟩ := hd
      by_cases he : (k2 == k) = true
      · rw [dict_insert, if_pos he]
        simp [dict_get]
      · rw [dict_insert, if_neg he]
        rw [dict_get, if_neg he]
        exact ih

/-- C7 counterexample: a config with authority_level 42 — outside [1,10] — is
accepted by register_agent and the persona is stored with authority 42, so the
registration-time range validation the claim states does not exist. -/
theorem C7_counterexample_authority_42_stored :
    (register_agent state_empty cfg_auth42 "fresh-1" 0).toOption.map
        (fun p => (dict_values p.2.active_agents).map (fun a => a.authority_level))
      = some [42]
    ∧ ¬((42 : Int) ≤ 10) :=
  ⟨by decide, by decide⟩

/-- C7 amended: register_agent validates the role (an unrecognized role string
is rejected) but performs no range check on authority_level: the stored
persona carries exactly the configured authority (default 5), whatever its
value, so the [1,10] invariant is not enforced at registration time. -/
theorem C7_amended_authority_unchecked (s : RegistryState) (cfg : PersonaConfig)
    (fresh_id : String) (now : Nat) :
    (role_from_string cfg.role = none →
      (register_agent s cfg fresh_id now).isOk = false)
    ∧ (∀ nm r rid s2, cfg.name = some nm → role_from_string cfg.role = some r →
        register_agent s cfg fresh_id now = Except.ok (rid, s2) →
        dict_get s2.active_agents fresh_id = some
          { agent_id := fresh_id
            name := nm
            role := r
            personality_traits := cfg.personality_traits.getD []
            communication_style := cfg.communication_style.getD "professional"
            expertise_areas := cfg.expertise_areas.getD []
            authority_level := cfg.authority_level.getD 5
            social_accounts := cfg.social_accounts.getD []
            contact_info := cfg.contact_info.getD []
            created_at := now
            updated_at := now
            status := AgentStatus.active }) := by
  constructor
  · intro hr
    cases hn : cfg.name with
    | none => simp [register_agent, hn, Except.isOk, Except.toBool]
    | some nm => simp [register_agent, hn, hr, Except.isOk, Except.toBool]
  · intro nm r rid s2 hn hr hreg
    simp only [register_agent, hn, hr] at hreg
    by_cases hw : s.db.writeOk = true
    · rw [if_pos hw] at hreg
      simp only [Except.ok.injEq, Prod.mk.injEq] at hreg
      obtain ⟨h1, h2⟩ := hreg
      rw [← h2]
      exact dict_get_insert_self s.active_agents fresh_id _
    · rw [if_neg hw] at hreg
      exact absurd hreg (by simp)

/-- C7 witness: the amended theorem applied to the unknown-role config
(rejected) and to the authority-42 config (stored unchanged). -/
theorem C7_amended_authority_unchecked_witness :
    ((register_agent state_empty cfg_bad_role "fresh-1" 0).isOk = false)
    ∧ dict_get state_auth42.active_agents "fresh-1" = some
        { agent_id := "fresh-1"
          name := "Rogue"
          role := AgentRole.technical
          personality_traits := cfg_auth42.personality_traits.getD []
          communication_style := cfg_auth42.communication_style.getD "professional"
          expertise_areas := cfg_auth42.expertise_areas.getD []
          authority_level := cfg_auth42.authority_level.getD 5
          social_accounts := cfg_auth42.social_accounts.getD []
          contact_info := cfg_auth42.contact_info.getD []
          created_at := 0
          updated_at := 0
          status := AgentStatus.active } :=
  ⟨(C7_amended_authority_unchecked state_empty cfg_bad_role "fresh-1" 0).1 (by decide),
   (C7_amended_authority_unchecked state_empty cfg_auth42 "fresh-1" 0).2
     "Rogue" AgentRole.technical "fresh-1" state_auth42 rfl (by decide) rfl⟩

/-! ### Claim C8 -/

theorem assoc_count_bump (c : List (String × Nat)) (k0 k : String) :
    assoc_count (bump_role_count c k0) k
      = if k0 == k then assoc_count c k + 1 else assoc_count c k := by
  induction c with
  | nil => simp [bump_role_count, assoc_count]
  | cons hd tl ih =>
      obtain ⟨k2, n⟩ := hd
      by_cases h20 : k2 = k0
      · subst h20
        rw [bump_role_count, if_pos (by simp)]
        by_cases h2k : k2 = k
        · subst h2k
          simp [assoc_count]
        · simp [assoc_count, beq_eq_false_iff_ne.mpr h2k]
      · rw [bump_role_count, if_neg (by simpa using h20)]
        by_cases h2k : k2 = k
        · subst h2k
          have hk0 : (k0 == k2) = false :=
            beq_eq_false_iff_ne.mpr (fun he => h20 he.symm)
          simp [assoc_count, hk0]
        · simp [assoc_count, beq_eq_false_iff_ne.mpr h2k, ih]

theorem fold_bump_count (l : List AgentPersona) (acc : List (String × Nat))
    (k : String) :
    assoc_count
        (l.foldl (fun acc a => bump_role_count acc (role_value a.role)) acc) k
      = assoc_count acc k + l.countP (fun a => role_value a.role == k) := by
  induction l generalizing acc with
  | nil => simp
  | cons a tl ih =>
      rw [List.foldl_cons, ih, assoc_count_bump, List.countP_cons]
      by_cases h : (role_value a.role == k) = true
      · simp only [h, if_true]
        omega
      · simp [h]

theorem perm_insert_desc_assignment (x : TaskAssignment) (l : List TaskAssignment) :
    List.Perm (insert_desc_assignment x l) (x :: l) := by
  induction l with
  | nil => exact List.Perm.refl _
  | cons y ys ih =>
      rw [insert_desc_assignment]
      by_cases h : x.assigned_at < y.assigned_at
      · rw [if_pos h]
        exact (ih.cons y).trans (List.Perm.swap x y ys)
      · rw [if_neg h]

theorem perm_sort_assignments_desc (l : List TaskAssignment) :
    List.Perm (sort_assignments_desc l) l := by
  induction l with
  | nil => exact List.Perm.refl _
  | cons x xs ih => exact (perm_insert_desc_assignment x _).trans (ih.cons x)

theorem pairwise_insert_desc_assignment (x : TaskAssignment)
    (l : List TaskAssignment)
    (hl : l.Pairwise (fun a b => b.assigned_at ≤ a.assigned_at)) :
    (insert_desc_assignment x l).Pairwise
      (fun a b => b.assigned_at ≤ a.assigned_at) := by
  induction l with
  | nil => simp [insert_desc_assignment]
  | cons y ys ih =>
      rw [insert_desc_assignment]
      rcases List.pairwise_cons.mp hl with ⟨hy, hys⟩
      by_cases h : x.assigned_at < y.assigned_at
      · rw [if_pos h]
        refine List.pairwise_cons.mpr ⟨?_, ih hys⟩
        intro z hz
        rcases List.mem_cons.mp ((perm_insert_desc_assignment x ys).mem_iff.mp hz)
            with hz | hz
        · subst hz; exact le_of_lt h
        · exact hy z hz
      · rw [if_neg h]
        refine List.pairwise_cons.mpr ⟨?_, hl⟩
        intro z hz
        rcases List.mem_cons.mp hz with hz | hz
        · subst hz; exact le_of_not_lt h
        · exact le_trans (hy z hz) (le_of_not_lt h)

theorem pairwise_sort_assignments_desc (l : List TaskAssignment) :
    (sort_assignments_desc l).Pairwise
      (fun a b => b.assigned_at ≤ a.assigned_at) := by
  induction l with
  | nil => simp [sort_assignments_desc]
  | cons x xs ih => exact pairwise_insert_desc_assignment x _ ih

/-- C8: get_registry_stats reports the size of the full working set, the
count of ACTIVE personas, a per-role count over the full working set, and a
recent-activity list that is newest-first (timestamps non-increasing), drawn
from the assignment log (the sorted log is a permutation of it), bounded by
10, and empty on adapter read failure; after initialize() on the empty store
it reports four agents, one per default role. -/
theorem C8_registry_stats_contract :
    (∀ s : RegistryState,
        (get_registry_stats s).total_agents = (dict_values s.active_agents).length
        ∧ (get_registry_stats s).active_agents
            = (dict_values s.active_agents).countP
                (fun a => a.status == AgentStatus.active)
        ∧ (∀ k : String,
            assoc_count (get_registry_stats s).agents_by_role k
              = (dict_values s.active_agents).countP
                  (fun a => role_value a.role == k))
        ∧ (get_registry_stats s).recent_activity.length ≤ 10
        ∧ (get_registry_stats s).recent_activity.Pairwise
            (fun x y => y.timestamp ≤ x.timestamp)
        ∧ (s.db.readOk = false → (get_registry_stats s).recent_activity = []))
    ∧ (∀ l : List TaskAssignment, List.Perm (sort_assignments_desc l) l)
    ∧ (get_registry_stats (initialize_registry state_empty fresh_ids4 0).2).total_agents
        = 4
    ∧ (get_registry_stats (initialize_registry state_empty fresh_ids4 0).2).agents_by_role
        = [("executive", 1), ("technical", 1), ("community", 1), ("compliance", 1)] := by
  refine ⟨?_, perm_sort_assignments_desc, by decide, by decide⟩
  intro s
  refine ⟨rfl, ?_, ?_, ?_, ?_, ?_⟩
  · rw [get_registry_stats, List.countP_eq_length_filter]
  · intro k
    rw [get_registry_stats]
    simpa [assoc_count] using fold_bump_count (dict_values s.active_agents) [] k
  · rw [get_registry_stats, get_recent_activity]
    by_cases h : s.db.readOk = true
    · rw [if_pos h, List.length_map, List.length_take]
      exact min_le_left _ _
    · rw [if_neg h]
      exact Nat.zero_le _
  · rw [get_registry_stats, get_recent_activity]
    by_cases h : s.db.readOk = true
    · rw [if_pos h]
      refine List.Pairwise.map _ ?_
        (((pairwise_sort_assignments_desc
            s.db.agent_task_assignments).sublist (List.take_sublist _ _)))
      intro a b hab
      exact hab
    · rw [if_neg h]
      exact List.Pairwise.nil
  · intro h
    rw [get_registry_stats, get_recent_activity, if_neg (by simp [h])]

/-- C8 witness: the contract applied to the registry whose adapter reads fail
(empty recent activity). -/
theorem C8_registry_stats_contract_witness :
    (get_registry_stats state_badread).recent_activity = [] :=
  (C8_registry_stats_contract.1 state_badread).2.2.2.2.2 rfl

/-! ### Claim C9 -/

/-- C9: get_registry_stats mutates nothing — the state passes through
unchanged — and calling it twice with no intervening mutation yields the same
result. -/
theorem C9_stats_idempotent_and_pure :
    ∀ s : RegistryState,
      (get_registry_stats_op s).2 = s
      ∧ (get_registry_stats_op ((get_registry_stats_op s).2)).1
          = (get_registry_stats_op s).1 :=
  fun _ => ⟨rfl, rfl⟩
